import Mathlib

/-!
Shallow embedding of the signed message envelope class from src/index.js
(satellite-earth/message), together with theorems settling the claims of
spec.md.

Modelling conventions:
 - JavaScript values stored in the two buckets are modelled by JVal
   (string, number, boolean, null, undefined, and one level of object
   nesting via JScalar fields).  Numbers are modelled as Int: no claim
   involves non-integer or NaN arithmetic.
 - A JS object is an association list that preserves insertion order;
   property assignment (setKey) updates in place or appends, property
   read (getKey) returns the first binding.  A missing property reads as
   undefined (jsGet).
 - Thrown JS exceptions are modelled with Except.  Methods that mutate
   the receiver before or after a possible throw return
   Except (JSErr × Message) Message so that the state at throw time is
   preserved (JS objects are mutated in place, so state changes made
   before a throw survive it).
 - The external dev-utils library and the Earth API collaborator are not
   part of src/; functions taken from them are marked
   "Modelled from the spec" in their doc comments and follow the
   interface described in spec.md sections 2, 3 and 6.
 - String positions are counted in characters; every string appearing in
   a claim is ASCII, where JS UTF-16 code-unit positions coincide with
   character positions.  decodeURIComponent is modelled for single-byte
   escapes; multi-byte UTF-8 reassembly and the URIError on malformed
   escapes are outside the scope of every claim.
-/

deriving instance DecidableEq for Except

/-- A scalar JavaScript value (a value inside a nested object). -/
inductive JScalar where
  | str (s : String)
  | num (n : Int)
  | bool (b : Bool)
  | null
  | undef
deriving DecidableEq

/-- A JavaScript value as stored in a bucket: a scalar or a one-level
object of scalars.  Deeper nesting never occurs in the envelope payload
shape (buckets of string values) and no claim requires it. -/
inductive JVal where
  | str (s : String)
  | num (n : Int)
  | bool (b : Bool)
  | null
  | undef
  | obj (fields : List (String × JScalar))
deriving DecidableEq

/-- A JS object used as a bucket: insertion-ordered association list. -/
abbrev Bucket := List (String × JVal)

/-- Property read: first binding of the key, if any. -/
def getKey (b : List (String × α)) (k : String) : Option α :=
  (b.find? (fun p => p.1 = k)).map (fun p => p.2)

/-- Property read with JS semantics: a missing property is undefined. -/
def jsGet (b : Bucket) (k : String) : JVal :=
  (getKey b k).getD JVal.undef

/-- Property assignment: overwrite in place when the key exists
(keeping its position, as JS objects do), otherwise append. -/
def setKey (b : List (String × α)) (k : String) (v : α) : List (String × α) :=
  if b.any (fun p => p.1 = k) then
    b.map (fun p => if p.1 = k then (k, v) else p)
  else
    b ++ [(k, v)]

/-- JS truthiness of a value. -/
def truthy : JVal → Bool
  | JVal.str s => decide (s ≠ "")
  | JVal.num n => decide (n ≠ 0)
  | JVal.bool b => b
  | JVal.null => false
  | JVal.undef => false
  | JVal.obj _ => true

/-- The JS expression a || b. -/
def jsOr (a b : JVal) : JVal := if truthy a then a else b

/-- Lift a scalar to a bucket value. -/
def scalarToVal : JScalar → JVal
  | JScalar.str s => JVal.str s
  | JScalar.num n => JVal.num n
  | JScalar.bool b => JVal.bool b
  | JScalar.null => JVal.null
  | JScalar.undef => JVal.undef

/-- Read a value as an object of scalars lifted to bucket values.
Iterating Object.keys over a truthy primitive is not modelled (no claim
constructs a message whose bucket slot holds a truthy primitive). -/
def asBucket : JVal → Bucket
  | JVal.obj fs => fs.map (fun p => (p.1, scalarToVal p.2))
  | _ => []

/-- Errors thrown by the class, separated by JS error species. -/
inductive JSErr where
  | typeErr (msg : String)
  | referenceErr (msg : String)
  | errorMsg (msg : String)
deriving DecidableEq

/-- The JS expression s.substring(0, n) and s.slice(0, n) on a
nonnegative count: take n characters. -/
def strTake (s : String) (n : Nat) : String := String.mk (s.toList.take n)

/-- The JS expressions s.substring(n) and s.slice(n) on a nonnegative
index: drop n characters. -/
def strDrop (s : String) (n : Nat) : String := String.mk (s.toList.drop n)

/-- First index at which pat occurs in l, or -1: JS String.indexOf. -/
def listIndexOf (l pat : List Char) : Int :=
  match (List.range (l.length + 1)).find?
      (fun i => decide ((l.drop i).take pat.length = pat)) with
  | some i => (i : Int)
  | none => -1

/-- JS s.indexOf(pat). -/
def jsIndexOf (s pat : String) : Int := listIndexOf s.toList pat.toList

/-- JS s.split(sep) for a one-character separator (the source splits on
the characters & and =). -/
def splitOnCharList (c : Char) : List Char → List (List Char)
  | [] => [[]]
  | x :: rest =>
    match splitOnCharList c rest with
    | [] => [[]]
    | h :: t => if x = c then [] :: h :: t else (x :: h) :: t

/-- Value of a hexadecimal digit character. -/
def hexVal (c : Char) : Option Nat :=
  if '0' ≤ c ∧ c ≤ '9' then some (c.toNat - 48)
  else if 'a' ≤ c ∧ c ≤ 'f' then some (c.toNat - 87)
  else if 'A' ≤ c ∧ c ≤ 'F' then some (c.toNat - 55)
  else none

/-- Percent-decoding of a character list.  Single-byte escapes only;
multi-byte UTF-8 reassembly and URIError on malformed escapes are not
modelled (no claim exercises them). -/
def percentDecodeList : List Char → List Char
  | '%' :: a :: b :: rest =>
    match hexVal a, hexVal b with
    | some ha, some hb => Char.ofNat (16 * ha + hb) :: percentDecodeList rest
    | _, _ => '%' :: percentDecodeList (a :: b :: rest)
  | c :: rest => c :: percentDecodeList rest
  | [] => []

/-- JS decodeURIComponent, restricted as described above. -/
def decodeURIComponent (s : String) : String :=
  String.mk (percentDecodeList s.toList)

/-- Lowercase hexadecimal digit for a value below 16. -/
def hexDigit (n : Nat) : Char :=
  if n < 10 then Char.ofNat (48 + n) else Char.ofNat (87 + n)

/-- Two-digit lowercase hexadecimal rendering of a byte. -/
def byteToHex (n : Nat) : String :=
  String.mk [hexDigit (n / 16 % 16), hexDigit (n % 16)]

/-- Modelled from the spec: utf8ToHex from the external dev-utils
library, the hex encoding of the UTF-8 bytes of a label, without a 0x
prefix (spec section 3: alias is stored as a hex-encoded textual
encoding of a UTF-8 label).  Covers ASCII labels, the only ones any
claim uses. -/
def utf8ToHex (s : String) : String :=
  String.join (s.toList.map (fun c => byteToHex c.toNat))

/-- JSON.stringify of a scalar; undefined has no JSON rendering.
Escaping of special characters inside strings is not modelled (no claim
stringifies a string containing them). -/
def renderScalar : JScalar → Option String
  | JScalar.str s => some ("\x22" ++ s ++ "\x22")
  | JScalar.num n => some (toString n)
  | JScalar.bool b => some (if b then "true" else "false")
  | JScalar.null => some "null"
  | JScalar.undef => none

/-- Comma-joined concatenation. -/
def commaJoin : List String → String
  | [] => ""
  | [x] => x
  | x :: y :: rest => x ++ "," ++ commaJoin (y :: rest)

/-- JSON.stringify of the members of an object; undefined-valued keys
are dropped, as JSON.stringify does. -/
def renderMembers (fs : List (String × JScalar)) : List String :=
  fs.foldr
    (fun p acc =>
      match renderScalar p.2 with
      | some s => ("\x22" ++ p.1 ++ "\x22:" ++ s) :: acc
      | none => acc) []

/-- JSON.stringify of a bucket value; undefined has no JSON rendering. -/
def renderJ : JVal → Option String
  | JVal.str s => some ("\x22" ++ s ++ "\x22")
  | JVal.num n => some (toString n)
  | JVal.bool b => some (if b then "true" else "false")
  | JVal.null => some "null"
  | JVal.undef => none
  | JVal.obj fs => some ("\x7b" ++ commaJoin (renderMembers fs) ++ "\x7d")

/-- One normalization step of the constructor (src/index.js lines
38-43): a value that is not a string is replaced by JSON.stringify of
it; JSON.stringify of undefined is the value undefined. -/
def normalizeVal (v : JVal) : JVal :=
  match v with
  | JVal.str _ => v
  | _ =>
    match renderJ v with
    | some s => JVal.str s
    | none => JVal.undef

/-- The effect of JSON.parse(JSON.stringify(v)) on a bucket value:
identity except that undefined members of a nested object are dropped. -/
def jsonRoundVal : JVal → JVal
  | JVal.obj fs => JVal.obj (fs.filter (fun p => decide (p.2 ≠ JScalar.undef)))
  | v => v

/-- The effect of JSON.parse(JSON.stringify(b)) on a bucket:
undefined-valued keys are dropped, remaining values are round-tripped. -/
def jsonRoundBucket (b : Bucket) : Bucket :=
  (b.filter (fun p => decide (p.2 ≠ JVal.undef))).map
    (fun p => (p.1, jsonRoundVal p.2))

/-- The envelope (class Message, src/index.js).  The two buckets keep
the source field names; verified is the derived lifecycle flag. -/
structure Message where
  _signed_ : Bucket
  _params_ : Bucket
  verified : Bool
deriving DecidableEq

/-- The payload object initialized by the string branch of the
constructor: var payload =. with empty _signed_ and _params_ buckets,
filled in by the routing loop. -/
structure UriPayload where
  sB : Bucket
  pB : Bucket
deriving DecidableEq

/-- The inner routing loop of the constructor (src/index.js lines
20-24): for each of the two payload keys, in object-key order _signed_
then _params_, if the decoded key contains that bucket name anywhere
(indexOf different from -1), assign the value into that bucket under
key.substring(bucketName.length), that is with the FIRST bucketName
many characters stripped, regardless of where the occurrence is. -/
def routePair (p : UriPayload) (key val : String) : UriPayload :=
  let p1 :=
    if jsIndexOf key "_signed_" ≠ -1 then
      { p with sB := setKey p.sB (strDrop key ("_signed_" : String).length) (JVal.str val) }
    else p
  if jsIndexOf key "_params_" ≠ -1 then
    { p1 with pB := setKey p1.pB (strDrop key ("_params_" : String).length) (JVal.str val) }
  else p1

/-- One iteration of the outer loop (src/index.js lines 16-25): split a
component on =, percent-decode key and value, and route.  When the
component has no =, kvp[1] is undefined and decodeURIComponent coerces
it to the string undefined. -/
def parsePair (p : UriPayload) (c : List Char) : UriPayload :=
  let kvp := splitOnCharList '=' c
  let key := decodeURIComponent (String.mk (kvp.getD 0 []))
  let val :=
    match kvp.get? 1 with
    | some v => decodeURIComponent (String.mk v)
    | none => "undefined"
  routePair p key val

/-- The string branch of the constructor (src/index.js lines 10-25):
the query portion is the substring after the later of ? and # (the
whole string when both are absent), split on &. -/
def parseUriBuckets (data : String) : UriPayload :=
  let i0 := jsIndexOf data "?"
  let i1 := jsIndexOf data "#"
  let i := if i0 > i1 then i0 else i1
  let s := if i > -1 then strDrop data (i.toNat + 1) else data
  (splitOnCharList '&' s.toList).foldl parsePair ⟨[], []⟩

/-- The tail of the constructor (src/index.js lines 32-45): store the
two buckets, convert every non-string signed value to a string via
JSON.stringify, and initialize verified to false. -/
def finishMsg (sB pB : Bucket) : Message :=
  { _signed_ := sB.map (fun p => (p.1, normalizeVal p.2))
    _params_ := pB
    verified := false }

/-- A top-level JS value passed to the constructor.  An object input is
a map whose values are bucket values (so the two recognized buckets,
which are objects of scalars, are representable, as is an arbitrary
object that will itself be treated as the signed bucket). -/
inductive JSInput where
  | null
  | obj (fields : Bucket)
  | str (s : String)
  | undef
  | num (n : Int)
  | bool (b : Bool)
deriving DecidableEq

/-- The constructor of class Message (src/index.js lines 5-46).
Dispatch follows typeof data: null has typeof object, so reading
data._signed_ on the object branch throws a TypeError; for any input
that is neither an object nor a string the code tests
typeof payload === undefined -- payload, not data -- which is always
true at that point, so such inputs build an empty message and the final
throw (Must provide message as json or url-encoded data) is dead code.
On the object branch, payload is data when data._signed_ is truthy
(buckets then read from data with missing or falsy ones defaulted to
empty objects), else the object literal with _signed_ mapped to data,
whose _params_ member is undefined and defaults to the empty object. -/
def newMessage : JSInput → Except JSErr Message
  | JSInput.null => Except.error (JSErr.typeErr "Cannot read properties of null (reading _signed_)")
  | JSInput.obj fields =>
    if truthy (jsGet fields "_signed_") then
      Except.ok (finishMsg (asBucket (jsOr (jsGet fields "_signed_") (JVal.obj [])))
                           (asBucket (jsOr (jsGet fields "_params_") (JVal.obj []))))
    else
      Except.ok (finishMsg fields [])
  | JSInput.str s =>
    let P := parseUriBuckets s
    Except.ok (finishMsg P.sB P.pB)
  | _ => Except.ok (finishMsg [] [])

/-- JS string coercion of a bucket value (used where the external
helpers receive the raw sig param). -/
def jvalToString : JVal → String
  | JVal.str s => s
  | JVal.num n => toString n
  | JVal.bool b => if b then "true" else "false"
  | JVal.null => "null"
  | JVal.undef => "undefined"
  | JVal.obj _ => "[object Object]"

/-- Getter signature (src/index.js lines 216-218): the raw sig param,
undefined when unset. -/
def Message.signature (m : Message) : JVal :=
  jsGet m._params_ "sig"

/-- Method clearSig (src/index.js lines 157-160): set the sig param to
undefined and verified to false. -/
def Message.clearSig (m : Message) : Message :=
  { m with _params_ := setKey m._params_ "sig" JVal.undef, verified := false }

/-- Method addSigned (src/index.js lines 147-155): when the argument
has at least one key, this.clearSig() first; then merge each key into
the signed bucket by plain assignment, with no string conversion. -/
def Message.addSigned (m : Message) (obj : Bucket) : Message :=
  let m1 := if obj.length > 0 then m.clearSig else m
  { m1 with _signed_ := obj.foldl (fun acc p => setKey acc p.1 p.2) m1._signed_ }

/-- Method addParams (src/index.js lines 137-145): when the key set
includes alias or sig, the source calls the bare identifier clearSig()
-- without this. -- which is not in scope, so the call throws a
ReferenceError before any merging; otherwise merge into the params
bucket.  The error constructor carries the message state at throw time
(unchanged). -/
def Message.addParams (m : Message) (obj : Bucket) : Except (JSErr × Message) Message :=
  let keys := obj.map (fun p => p.1)
  if keys.contains "alias" ∨ keys.contains "sig" then
    Except.error (JSErr.referenceErr "clearSig is not defined", m)
  else
    Except.ok { m with _params_ := obj.foldl (fun acc p => setKey acc p.1 p.2) m._params_ }

/-- Setter signature (src/index.js lines 178-181): store the signature
with a leading 0x stripped when present; reset verified. -/
def Message.setSignature (m : Message) (sig : String) : Message :=
  { m with
    _params_ := setKey m._params_ "sig"
      (JVal.str (if strTake sig 2 = "0x" then strDrop sig 2 else sig))
    verified := false }

/-- Modelled from the spec: getMessageUUID from the external dev-utils
library.  Spec section 3 and the source comment at lines 183-184 define
the identity as the first 40 hex characters of the signature, excluding
a hex prefix. -/
def getMessageUUID (m : Message) : String :=
  let s := jvalToString m.signature
  strTake (if strTake s 2 = "0x" then strDrop s 2 else s) 40

/-- Getter uuid (src/index.js lines 185-198): defined only when the
signature is truthy; otherwise throws rather than returning an absent
value. -/
def Message.uuid (m : Message) : Except JSErr String :=
  if truthy m.signature then Except.ok (getMessageUUID m)
  else Except.error (JSErr.errorMsg "Cannot access uuid for unsigned message.")

/-- Modelled from the spec: String.localeCompare as plain lexicographic
comparison returning -1, 0 or 1 (locale tailoring is irrelevant to
every claim, which only observe whether compare throws). -/
def localeCompare (a b : String) : Int :=
  if a < b then -1 else if a = b then 0 else 1

/-- Method compare (src/index.js lines 163-167): reads this.uuid, then
that.uuid, so an unsigned receiver throws before anything else. -/
def Message.compare (m that : Message) : Except JSErr Int :=
  match m.uuid with
  | Except.error e => Except.error e
  | Except.ok a =>
    match that.uuid with
    | Except.error e => Except.error e
    | Except.ok b => Except.ok (localeCompare a b)

/-- Getter keys (src/index.js lines 221-223): Object.keys of the
signed bucket, in insertion order. -/
def Message.keys (m : Message) : List String :=
  m._signed_.map (fun p => p.1)

/-- Getter payload at the value level (src/index.js lines 228-233):
JSON.parse(JSON.stringify(.)) of the two buckets.  The heap-level
isolation of the returned snapshot is modelled separately below. -/
def Message.payload (m : Message) : Bucket × Bucket :=
  (jsonRoundBucket m._signed_, jsonRoundBucket m._params_)

/-- The Earth API collaborator interface for verify (spec section 6):
verifyData resolves the alias linked to the signing address, or fails. -/
abbrev EarthVerify := Message → List String → Except String String

/-- The Earth API collaborator interface for verifySync. -/
abbrev EarthVerifySync := Message → Int → List String → Except String String

/-- Method verify (src/index.js lines 69-100).  The absent-service
check, the claimed alias capture, the sig presence check, the service
call with log-and-rethrow, the mismatch check against the claimed
alias when that is truthy, the adoption assignment, and the verified
flag, in source order.  The error constructor carries the message state
at throw time; every throw happens before any state change. -/
def Message.verify (m : Message) (earth : Option EarthVerify) (domain : List String) :
    Except (JSErr × Message) Message :=
  match earth with
  | none => Except.error (JSErr.errorMsg "Must provide Earth API instance", m)
  | some verifyData =>
    let claimedAlias := jsGet m._params_ "alias"
    if truthy m.signature then
      match verifyData m domain with
      | Except.error _ => Except.error (JSErr.errorMsg "Failed to get alias", m)
      | Except.ok aliasRes =>
        if truthy claimedAlias ∧ claimedAlias ≠ JVal.str aliasRes then
          Except.error
            (JSErr.errorMsg "Alias linked to address does not match alias in _params_", m)
        else
          Except.ok
            { m with _params_ := setKey m._params_ "alias" (JVal.str aliasRes), verified := true }
    else
      Except.error (JSErr.errorMsg "Missing required sig param", m)

/-- Method verifySync (src/index.js lines 102-135): the same contract
as verify with a non-suspending service call taking a block number. -/
def Message.verifySync (m : Message) (earth : Option EarthVerifySync) (blockNumber : Int)
    (domain : List String) : Except (JSErr × Message) Message :=
  match earth with
  | none => Except.error (JSErr.errorMsg "Must provide Earth API instance", m)
  | some verifyDataSync =>
    let claimedAlias := jsGet m._params_ "alias"
    if truthy m.signature then
      match verifyDataSync m blockNumber domain with
      | Except.error _ => Except.error (JSErr.errorMsg "Failed to get alias", m)
      | Except.ok aliasRes =>
        if truthy claimedAlias ∧ claimedAlias ≠ JVal.str aliasRes then
          Except.error
            (JSErr.errorMsg "Alias linked to address does not match alias in _params_", m)
        else
          Except.ok
            { m with _params_ := setKey m._params_ "alias" (JVal.str aliasRes), verified := true }
    else
      Except.error (JSErr.errorMsg "Missing required sig param", m)

/-- A heap of JS bucket objects; a reference is an index into cells.
This is the minimal reference semantics needed to state what the
payload getter (src/index.js lines 228-233) guarantees: the getter
returns FRESH objects, so writes through the returned references can
never reach the buckets owned by the envelope. -/
structure Store where
  cells : List Bucket
deriving DecidableEq

/-- Dereference: the bucket a reference points to. -/
def Store.read (st : Store) (r : Nat) : Bucket :=
  (st.cells.getD r [])

/-- Property assignment through a reference: mutate one cell in place.
Out-of-range references are no-ops. -/
def Store.writeCell (st : Store) (r : Nat) (k : String) (v : JVal) : Store :=
  ⟨st.cells.set r (setKey (st.read r) k v)⟩

/-- Allocation of a fresh object holding bucket b. -/
def Store.alloc (st : Store) (b : Bucket) : Store × Nat :=
  (⟨st.cells ++ [b]⟩, st.cells.length)

/-- The payload getter at the heap level: an envelope whose buckets live
at sigRef and parRef has JSON.parse(JSON.stringify(.)) applied to each
bucket, and the two results are allocated as fresh objects whose
references are returned. -/
def payloadAlloc (st : Store) (sigRef parRef : Nat) : Store × Nat × Nat :=
  let a1 := st.alloc (jsonRoundBucket (st.read sigRef))
  let a2 := a1.1.alloc (jsonRoundBucket (a1.1.read parRef))
  (a2.1, a1.2, a2.2)

/-- A caller mutation of the returned snapshot: a sequence of property
writes through references. -/
def applyWrites (st : Store) (ws : List (Nat × String × JVal)) : Store :=
  ws.foldl (fun s w => s.writeCell w.1 w.2.1 w.2.2) st

/-- Whether a bucket value is string-typed. -/
def isStr : JVal → Bool
  | JVal.str _ => true
  | _ => false

/-- Whether a bucket value is string-typed or undefined (the two shapes
a signed value can have right after construction). -/
def isStrOrUndef : JVal → Bool
  | JVal.str _ => true
  | JVal.undef => true
  | _ => false

/-- Forty hex characters used by the URI scenario of the spec. -/
def hex40 : String := "0123456789abcdef0123456789abcdef01234567"

/-- The URI of the spec scenario: a signed field name=hi and a sig
param carrying a 0x prefix. -/
def uriScenario : String := "_signed_name=hi&_params_sig=0x" ++ hex40

/-- The message the URI scenario constructs (the sig is stored with its
0x prefix intact, because the constructor does not use the signature
setter). -/
def msgScenario : Message :=
  ⟨[("name", JVal.str "hi")], [("sig", JVal.str ("0x" ++ hex40))], false⟩

/-- A verified signed message used to exercise the mutation methods. -/
def msgVerified : Message :=
  ⟨[("name", JVal.str "hi")], [("sig", JVal.str "abc")], true⟩

/-- A message whose params claim an empty-string alias and carry a
signature. -/
def msgEmptyAlias : Message :=
  ⟨[], [("alias", JVal.str ""), ("sig", JVal.str "ab")], false⟩

/-- A message claiming alias bob (hex of bob) with a signature. -/
def msgClaimsBob : Message :=
  ⟨[], [("alias", JVal.str "626f62"), ("sig", JVal.str "ab")], false⟩

/-- A message with a signature and no alias param. -/
def msgNoAlias : Message := ⟨[], [("sig", JVal.str "ab")], false⟩

/-- An Earth API whose verifyData resolves the signing address to the
alias alice (hex-encoded, as stored in params and as compared against
the claimed alias by the source). -/
def svcAlice : EarthVerify := fun _ _ => Except.ok "616c696365"

/-- The synchronous variant of svcAlice. -/
def svcAliceSync : EarthVerifySync := fun _ _ _ => Except.ok "616c696365"

/-- A two-cell heap: cell 0 is a signed bucket, cell 1 a params bucket
holding a cleared (undefined) sig and an alias. -/
def storeEx : Store :=
  ⟨[[("name", JVal.str "hi")], [("sig", JVal.undef), ("alias", JVal.str "78")]]⟩

/-- Writes through the two references payloadAlloc returns on storeEx. -/
def writesEx : List (Nat × String × JVal) :=
  [(2, "name", JVal.str "mutated"), (3, "alias", JVal.undef), (2, "extra", JVal.num 1)]

/-- The envelope whose buckets are the two cells of storeEx. -/
def msgStoreEx : Message :=
  ⟨[("name", JVal.str "hi")], [("sig", JVal.undef), ("alias", JVal.str "78")], false⟩

/-- Reading an updated key returns the new value (used to map the
map-in-place branch of setKey). -/
theorem getKey_map_update (b : List (String × α)) (k : String) (v : α)
    (h : b.any (fun p => p.1 = k) = true) :
    getKey (b.map (fun p => if p.1 = k then (k, v) else p)) k = some v := by
  induction b with
  | nil => simp at h
  | cons p rest ih =>
    by_cases hp : p.1 = k
    · simp [getKey, List.find?_cons, hp]
    · have h' : rest.any (fun p => p.1 = k) = true := by
        simpa [List.any_cons, hp] using h
      simpa [getKey, List.find?_cons, hp] using ih h'

/-- Reading a freshly appended key returns the new value. -/
theorem getKey_append_fresh (b : List (String × α)) (k : String) (v : α)
    (h : b.any (fun p => p.1 = k) = false) :
    getKey (b ++ [(k, v)]) k = some v := by
  induction b with
  | nil => simp [getKey]
  | cons p rest ih =>
    have hp : ¬ (p.1 = k) := by
      intro hpk
      simp [List.any_cons, hpk] at h
    have h' : rest.any (fun p => p.1 = k) = false := by
      simpa [List.any_cons, hp] using h
    simpa [getKey, List.find?_cons, hp] using ih h'

/-- Reading a just-assigned key returns the assigned value. -/
theorem getKey_setKey (b : List (String × α)) (k : String) (v : α) :
    getKey (setKey b k v) k = some v := by
  unfold setKey
  by_cases h : b.any (fun p => p.1 = k) = true
  · simpa [h] using getKey_map_update b k v h
  · rw [Bool.not_eq_true] at h
    simpa [h] using getKey_append_fresh b k v h

/-- The constructor normalization maps every value to a string, except
undefined, which JSON.stringify leaves as the value undefined. -/
theorem isStrOrUndef_normalizeVal (v : JVal) : isStrOrUndef (normalizeVal v) = true := by
  cases v <;> simp [normalizeVal, renderJ, isStrOrUndef]

/-- Every signed value of a constructed message is a string or
undefined. -/
theorem finishMsg_signed_all (sB pB : Bucket) :
    (finishMsg sB pB)._signed_.all (fun p => isStrOrUndef p.2) = true := by
  simp only [finishMsg, List.all_eq_true]
  intro x hx
  obtain ⟨p, _, rfl⟩ := List.mem_map.mp hx
  exact isStrOrUndef_normalizeVal p.2

/-- Constructor invariant: on every successful construction path the
signed bucket holds only strings (or undefined, from an undefined
input value). -/
theorem newMessage_signed_all (d : JSInput) (m : Message)
    (h : newMessage d = Except.ok m) :
    m._signed_.all (fun p => isStrOrUndef p.2) = true := by
  cases d with
  | null => simp [newMessage] at h
  | obj fields =>
    by_cases hc : truthy (jsGet fields "_signed_") = true
    · simp [newMessage, hc] at h
      rw [← h]
      exact finishMsg_signed_all _ _
    · rw [Bool.not_eq_true] at hc
      simp [newMessage, hc] at h
      rw [← h]
      exact finishMsg_signed_all _ _
  | str s =>
    simp [newMessage] at h
    rw [← h]
    exact finishMsg_signed_all _ _
  | undef =>
    simp [newMessage] at h
    rw [← h]
    exact finishMsg_signed_all _ _
  | num n =>
    simp [newMessage] at h
    rw [← h]
    exact finishMsg_signed_all _ _
  | bool b =>
    simp [newMessage] at h
    rw [← h]
    exact finishMsg_signed_all _ _

/-- Taking two characters of a string with a 0x prefix yields 0x. -/
theorem strTake_0x (s : String) : strTake ("0x" ++ s) 2 = "0x" := by
  cases s with
  | mk d => rfl

/-- Dropping two characters removes exactly the 0x prefix. -/
theorem strDrop_0x (s : String) : strDrop ("0x" ++ s) 2 = s := by
  cases s with
  | mk d => rfl

/-- The signature setter strips a supplied 0x prefix. -/
theorem setSignature_strips (m : Message) (s : String) :
    (m.setSignature ("0x" ++ s)).signature = JVal.str s := by
  simp [Message.setSignature, strTake_0x, strDrop_0x, Message.signature, jsGet, getKey_setKey]

/-- Reduction of verify on a mismatching resolution: with a truthy
claimed alias different from the resolved one, verify throws
AuthorMismatch with the message state untouched. -/
theorem verify_mismatch (m : Message) (svc : EarthVerify) (domain : List String)
    (a r : String)
    (h1 : getKey m._params_ "alias" = some (JVal.str a)) (ha : a ≠ "")
    (h2 : truthy m.signature = true)
    (h3 : svc m domain = Except.ok r) (hr : r ≠ a) :
    m.verify (some svc) domain
      = Except.error
          (JSErr.errorMsg "Alias linked to address does not match alias in _params_", m) := by
  have hca : jsGet m._params_ "alias" = JVal.str a := by simp [jsGet, h1]
  have har : a ≠ r := fun hh => hr hh.symm
  have hta : truthy (JVal.str a) = true := by simp [truthy, ha]
  simp [Message.verify, hca, h2, h3, hta, har]

/-- Reduction of verifySync on a mismatching resolution. -/
theorem verifySync_mismatch (m : Message) (svc : EarthVerifySync) (bn : Int)
    (domain : List String) (a r : String)
    (h1 : getKey m._params_ "alias" = some (JVal.str a)) (ha : a ≠ "")
    (h2 : truthy m.signature = true)
    (h3 : svc m bn domain = Except.ok r) (hr : r ≠ a) :
    m.verifySync (some svc) bn domain
      = Except.error
          (JSErr.errorMsg "Alias linked to address does not match alias in _params_", m) := by
  have hca : jsGet m._params_ "alias" = JVal.str a := by simp [jsGet, h1]
  have har : a ≠ r := fun hh => hr hh.symm
  have hta : truthy (JVal.str a) = true := by simp [truthy, ha]
  simp [Message.verifySync, hca, h2, h3, hta, har]

/-- Reduction of verify with no claimed alias: the resolved alias is
adopted, verified becomes true, and the updated envelope is returned. -/
theorem verify_adopt (m : Message) (svc : EarthVerify) (domain : List String) (r : String)
    (h1 : getKey m._params_ "alias" = none)
    (h2 : truthy m.signature = true)
    (h3 : svc m domain = Except.ok r) :
    m.verify (some svc) domain
      = Except.ok
          { m with _params_ := setKey m._params_ "alias" (JVal.str r), verified := true } := by
  have hca : jsGet m._params_ "alias" = JVal.undef := by simp [jsGet, h1]
  have htu : truthy JVal.undef = false := rfl
  simp [Message.verify, hca, h2, h3, htu]

/-- Appending cells leaves in-range references unchanged. -/
theorem store_read_append (st : Store) (l : List Bucket) (r : Nat)
    (h : r < st.cells.length) :
    Store.read ⟨st.cells ++ l⟩ r = st.read r := by
  simp [Store.read, List.getD, List.get?_eq_getElem?, List.getElem?_append, h]

/-- Reading the first of two appended cells. -/
theorem store_read_append_fst (st : Store) (b1 b2 : Bucket) :
    Store.read ⟨st.cells ++ [b1, b2]⟩ st.cells.length = b1 := by
  simp only [Store.read, List.getD, List.get?_eq_getElem?, List.getElem?_append]
  rw [if_neg (lt_irrefl _), Nat.sub_self]
  rfl

/-- Reading the second of two appended cells. -/
theorem store_read_append_snd (st : Store) (b1 b2 : Bucket) :
    Store.read ⟨st.cells ++ [b1, b2]⟩ (st.cells.length + 1) = b2 := by
  simp only [Store.read, List.getD, List.get?_eq_getElem?, List.getElem?_append]
  rw [if_neg (by omega)]
  have h1 : st.cells.length + 1 - st.cells.length = 1 := by omega
  rw [h1]
  rfl

/-- Writing through one reference does not change what another one
points to. -/
theorem writeCell_read_ne (st : Store) (r j : Nat) (k : String) (v : JVal)
    (h : r ≠ j) :
    (st.writeCell r k v).read j = st.read j := by
  simp [Store.writeCell, Store.read, List.getD, List.get?_eq_getElem?, List.getElem?_set_ne h]

/-- A sequence of writes through references strictly above j leaves the
cell at j unchanged. -/
theorem applyWrites_read_lt (ws : List (Nat × String × JVal)) (st : Store) (j : Nat)
    (hws : ∀ w ∈ ws, j < w.1) :
    (applyWrites st ws).read j = st.read j := by
  induction ws generalizing st with
  | nil => rfl
  | cons w rest ih =>
    have step : applyWrites st (w :: rest)
        = applyWrites (st.writeCell w.1 w.2.1 w.2.2) rest := rfl
    rw [step, ih _ (fun w' hw' => hws w' (List.mem_cons_of_mem _ hw'))]
    exact writeCell_read_ne st w.1 j w.2.1 w.2.2 (Nat.ne_of_gt (hws w (List.mem_cons_self _ _)))

/-- The shape of the store and references produced by the payload
getter: two fresh cells past the end holding the JSON round trips. -/
theorem payloadAlloc_cells (st : Store) (sigRef parRef : Nat)
    (hp : parRef < st.cells.length) :
    (payloadAlloc st sigRef parRef).1
      = ⟨st.cells ++ [jsonRoundBucket (st.read sigRef), jsonRoundBucket (st.read parRef)]⟩
    ∧ (payloadAlloc st sigRef parRef).2.1 = st.cells.length
    ∧ (payloadAlloc st sigRef parRef).2.2 = st.cells.length + 1 := by
  have hr : Store.read ⟨st.cells ++ [jsonRoundBucket (st.read sigRef)]⟩ parRef
      = st.read parRef :=
    store_read_append st _ parRef hp
  refine ⟨?_, rfl, ?_⟩
  · simp [payloadAlloc, Store.alloc, hr]
  · simp [payloadAlloc, Store.alloc]

/-- C1: the claim says a verified envelope is invalidated by addSigned
with a non-empty map AND by addParams with alias or sig keys, all three
calls completing with verified false.  The addSigned part holds: the
signature is cleared (sig becomes undefined) and verified resets.  But
addParams({alias: x}) and addParams({sig: y}) hit the bare clearSig()
call of src/index.js line 140 (missing the this. receiver) and throw a
ReferenceError before clearing or merging anything, leaving the
envelope unchanged with verified still true: the claim fails against
the code while matching the comment at line 140, so this is a code
bug.  This theorem evaluates the embedded code at the failing input. -/
theorem c1_mutation_invalidation_bug :
    msgVerified.verified = true
  ∧ msgVerified.addSigned [("k", JVal.str "v")]
      = ⟨[("name", JVal.str "hi"), ("k", JVal.str "v")], [("sig", JVal.undef)], false⟩
  ∧ msgVerified.addParams [("alias", JVal.str "x")]
      = Except.error (JSErr.referenceErr "clearSig is not defined", msgVerified)
  ∧ msgVerified.addParams [("sig", JVal.str "y")]
      = Except.error (JSErr.referenceErr "clearSig is not defined", msgVerified) := by
  exact ⟨rfl, by decide, by decide, by decide⟩

/-- C2 counterexample: the claim says a key containing a bucket prefix
anywhere is stored under the key with everything UP TO AND INCLUDING
the occurrence stripped.  For the URI x_signed_a=v the prefix occurs at
index 1 and ends at index 9, so the claim predicts bucket key a; the
code strips substring(prefix.length), the first 8 characters, and
stores under _a instead. -/
theorem c2_counterexample :
    jsIndexOf "x_signed_a" "_signed_" = 1
  ∧ strDrop "x_signed_a" 9 = "a"
  ∧ newMessage (JSInput.str "x_signed_a=v")
      = Except.ok ⟨[("_a", JVal.str "v")], [], false⟩
  ∧ getKey ([("_a", JVal.str "v")] : Bucket) "a" = none := by
  exact ⟨by decide, by decide, by decide, by decide⟩

/-- C2 (amended): for every decoded key=value pair and each bucket
prefix, if the key contains the prefix as a substring anywhere, the
value is written into that bucket under the key with its FIRST
prefix-length (8) characters stripped (key.substring(prefix.length),
not the characters up to the occurrence); a key containing neither
prefix leaves that bucket unchanged, and a key containing both
prefixes is written into both buckets, as the closed constructor-level
conjunct shows. -/
theorem c2_prefix_routing :
    (∀ (p : UriPayload) (key val : String),
      ((jsIndexOf key "_signed_" ≠ -1 →
          (routePair p key val).sB
            = setKey p.sB (strDrop key ("_signed_" : String).length) (JVal.str val))
       ∧ (jsIndexOf key "_signed_" = -1 → (routePair p key val).sB = p.sB))
      ∧ ((jsIndexOf key "_params_" ≠ -1 →
            (routePair p key val).pB
              = setKey p.pB (strDrop key ("_params_" : String).length) (JVal.str val))
       ∧ (jsIndexOf key "_params_" = -1 → (routePair p key val).pB = p.pB)))
  ∧ newMessage (JSInput.str "x_signed__params_y=v")
      = Except.ok ⟨[("__params_y", JVal.str "v")], [("__params_y", JVal.str "v")], false⟩ := by
  refine ⟨?_, by decide⟩
  intro p key val
  by_cases h1 : jsIndexOf key "_signed_" = -1 <;>
    by_cases h2 : jsIndexOf key "_params_" = -1 <;>
      simp [routePair, h1, h2]

/-- C2 witness: the routing theorem applied at the concrete key
ab_signed_cd, which contains the signed prefix at index 2 and not the
params prefix. -/
theorem c2_prefix_routing_witness :
    (routePair ⟨[], []⟩ "ab_signed_cd" "v").sB
      = setKey ([] : Bucket) (strDrop "ab_signed_cd" ("_signed_" : String).length)
          (JVal.str "v")
  ∧ (routePair ⟨[], []⟩ "ab_signed_cd" "v").pB = [] := by
  exact ⟨(c2_prefix_routing.1 ⟨[], []⟩ "ab_signed_cd" "v").1.1 (by decide),
         (c2_prefix_routing.1 ⟨[], []⟩ "ab_signed_cd" "v").2.2 (by decide)⟩

/-- C3 counterexample: the claim quantifies over every envelope that
carries a claimed alias param.  An envelope whose alias param is the
empty string carries that param, yet the source guards the mismatch
check with the truthiness of the claimed alias (line 92), so verify
succeeds against a service resolving alice and even overwrites the
claimed alias, instead of failing with AuthorMismatch and leaving
params unchanged. -/
theorem c3_counterexample :
    getKey msgEmptyAlias._params_ "alias" = some (JVal.str "")
  ∧ ("616c696365" : String) ≠ ""
  ∧ msgEmptyAlias.verify (some svcAlice) []
      = Except.ok ⟨[], [("alias", JVal.str "616c696365"), ("sig", JVal.str "ab")], true⟩ := by
  exact ⟨by decide, by decide, by decide⟩

/-- C3 (amended): for every envelope carrying a NON-EMPTY (truthy)
claimed alias param and a truthy signature, when the service resolves
an alias different from the claimed one, verify and verifySync both
fail with AuthorMismatch, and the error carries the envelope exactly as
it was (params unchanged, the claimed alias still in place, verified
not set to true). -/
theorem c3_mismatch_rejection (m : Message) (svc : EarthVerify) (svcS : EarthVerifySync)
    (bn : Int) (domain : List String) (a r : String)
    (h1 : getKey m._params_ "alias" = some (JVal.str a)) (ha : a ≠ "")
    (h2 : truthy m.signature = true)
    (h3 : svc m domain = Except.ok r) (h4 : svcS m bn domain = Except.ok r) (hr : r ≠ a) :
    m.verify (some svc) domain
      = Except.error
          (JSErr.errorMsg "Alias linked to address does not match alias in _params_", m)
  ∧ m.verifySync (some svcS) bn domain
      = Except.error
          (JSErr.errorMsg "Alias linked to address does not match alias in _params_", m) := by
  exact ⟨verify_mismatch m svc domain a r h1 ha h2 h3 hr,
         verifySync_mismatch m svcS bn domain a r h1 ha h2 h4 hr⟩

/-- C3 witness: an envelope claiming alias bob (hex 626f62) with a
signature, verified against a service resolving alice (hex 616c696365),
fails with AuthorMismatch in both execution modes. -/
theorem c3_mismatch_rejection_witness :
    msgClaimsBob.verify (some svcAlice) []
      = Except.error
          (JSErr.errorMsg "Alias linked to address does not match alias in _params_",
           msgClaimsBob)
  ∧ msgClaimsBob.verifySync (some svcAliceSync) 7 []
      = Except.error
          (JSErr.errorMsg "Alias linked to address does not match alias in _params_",
           msgClaimsBob) :=
  c3_mismatch_rejection msgClaimsBob svcAlice svcAliceSync 7 [] "626f62" "616c696365"
    (by decide) (by decide) (by decide) (by decide) (by decide) (by decide)

/-- C4: verifying a signed envelope with no claimed alias param, where
the service resolves alice -- the service speaks the hex encoding
stored in params, so resolving alice means returning
utf8ToHex alice = 616c696365 -- succeeds, adopts the resolved alias
into the params bucket, sets verified true, and returns the envelope
itself (modelled as the ok value being the updated receiver). -/
theorem c4_adoption_on_verify (m : Message) (svc : EarthVerify) (domain : List String)
    (h1 : getKey m._params_ "alias" = none)
    (h2 : truthy m.signature = true)
    (h3 : svc m domain = Except.ok (utf8ToHex "alice")) :
    m.verify (some svc) domain
      = Except.ok
          { m with
            _params_ := setKey m._params_ "alias" (JVal.str (utf8ToHex "alice"))
            verified := true }
  ∧ getKey (setKey m._params_ "alias" (JVal.str (utf8ToHex "alice"))) "alias"
      = some (JVal.str (utf8ToHex "alice")) := by
  exact ⟨verify_adopt m svc domain (utf8ToHex "alice") h1 h2 h3, getKey_setKey _ _ _⟩

/-- C4 witness: a signed envelope with no alias param, verified against
the alice-resolving service. -/
theorem c4_adoption_on_verify_witness :
    msgNoAlias.verify (some svcAlice) []
      = Except.ok ⟨[], [("sig", JVal.str "ab"), ("alias", JVal.str "616c696365")], true⟩
  ∧ getKey (setKey msgNoAlias._params_ "alias" (JVal.str (utf8ToHex "alice"))) "alias"
      = some (JVal.str (utf8ToHex "alice")) := by
  have h := c4_adoption_on_verify msgNoAlias svcAlice [] (by decide) (by decide) (by decide)
  exact ⟨h.1.trans (by decide), h.2⟩

/-- C5: the claim says construction from an input that is neither an
object, a string nor undefined fails with InvalidInputKind.  The source
intends this (the throw at line 29 with the message Must provide
message as json or url-encoded data), but line 26 tests
typeof payload === undefined instead of typeof data, and payload is
always undefined at that point, so a number or boolean input falls
into the empty-payload branch and yields an empty message; the only
error any input can produce is the null TypeError.  The claim matches
the intent, the code is a slip: code bug, witnessed by evaluating the
constructor at 42 and true. -/
theorem c5_invalid_input_unreachable :
    newMessage (JSInput.num 42) = Except.ok ⟨[], [], false⟩
  ∧ newMessage (JSInput.bool true) = Except.ok ⟨[], [], false⟩
  ∧ ∀ d : JSInput, (∃ m, newMessage d = Except.ok m)
      ∨ newMessage d
          = Except.error (JSErr.typeErr "Cannot read properties of null (reading _signed_)") := by
  refine ⟨by decide, by decide, ?_⟩
  intro d
  cases d with
  | null => exact Or.inr rfl
  | obj fields =>
    by_cases hc : truthy (jsGet fields "_signed_") = true
    · exact Or.inl ⟨finishMsg (asBucket (jsOr (jsGet fields "_signed_") (JVal.obj [])))
        (asBucket (jsOr (jsGet fields "_params_") (JVal.obj []))), by simp [newMessage, hc]⟩
    · rw [Bool.not_eq_true] at hc
      exact Or.inl ⟨finishMsg fields [], by simp [newMessage, hc]⟩
  | str s => exact Or.inl ⟨_, rfl⟩
  | undef => exact Or.inl ⟨_, rfl⟩
  | num n => exact Or.inl ⟨_, rfl⟩
  | bool b => exact Or.inl ⟨_, rfl⟩

/-- C6 counterexample: the claim says the signature accessor of the
envelope constructed from the scenario URI equals the 40 hex characters
without the 0x prefix.  The constructor stores the sig param verbatim
(only the signature SETTER strips 0x, src/index.js lines 178-181, and
the constructor does not go through it), so the accessor returns the
prefixed string, which differs from the claimed value. -/
theorem c6_counterexample :
    newMessage (JSInput.str uriScenario) = Except.ok msgScenario
  ∧ msgScenario.signature = JVal.str ("0x" ++ hex40)
  ∧ JVal.str ("0x" ++ hex40) ≠ JVal.str hex40 := by
  exact ⟨by decide, by decide, by decide⟩

/-- C6 (amended): constructing from the scenario URI yields signed keys
[name], signed.name hi, a signature accessor equal to 0x followed by
the 40 hex characters (the prefix is NOT stripped on this path), and an
identity equal to the 40 hex characters, that is the first 40
characters of the signature after excluding its hex prefix; the
general stripping rule holds only for the signature setter, which
stores a 0x-prefixed signature without the prefix. -/
theorem c6_uri_scenario :
    newMessage (JSInput.str uriScenario) = Except.ok msgScenario
  ∧ msgScenario.keys = ["name"]
  ∧ getKey msgScenario._signed_ "name" = some (JVal.str "hi")
  ∧ msgScenario.signature = JVal.str ("0x" ++ hex40)
  ∧ msgScenario.uuid = Except.ok hex40
  ∧ ∀ (m : Message) (s : String), (m.setSignature ("0x" ++ s)).signature = JVal.str s := by
  exact ⟨by decide, by decide, by decide, by decide, by decide, setSignature_strips⟩

/-- C7: an envelope constructed from the empty object has no signed
keys and is unverified, and for every envelope whose sig param is
absent, reading the identity (uuid) fails with the NoSignature error
rather than returning any value, and comparing two such envelopes
fails the same way (the receiver uuid throws first), so two unsigned
envelopes can never compare equal through their identities. -/
theorem c7_identity_fails_loudly :
    newMessage (JSInput.obj []) = Except.ok ⟨[], [], false⟩
  ∧ Message.keys ⟨[], [], false⟩ = []
  ∧ (Message.mk [] [] false).verified = false
  ∧ ∀ (m m2 : Message), getKey m._params_ "sig" = none →
      m.uuid = Except.error (JSErr.errorMsg "Cannot access uuid for unsigned message.")
    ∧ m.compare m2
        = Except.error (JSErr.errorMsg "Cannot access uuid for unsigned message.") := by
  refine ⟨by decide, by decide, rfl, ?_⟩
  intro m m2 h
  have hsig : m.signature = JVal.undef := by simp [Message.signature, jsGet, h]
  have hu : m.uuid
      = Except.error (JSErr.errorMsg "Cannot access uuid for unsigned message.") := by
    simp [Message.uuid, hsig, truthy]
  exact ⟨hu, by simp [Message.compare, hu]⟩

/-- C7 witness: the universally quantified part applied to the freshly
constructed empty envelope compared against itself. -/
theorem c7_identity_fails_loudly_witness :
    Message.uuid ⟨[], [], false⟩
      = Except.error (JSErr.errorMsg "Cannot access uuid for unsigned message.")
  ∧ Message.compare ⟨[], [], false⟩ ⟨[], [], false⟩
      = Except.error (JSErr.errorMsg "Cannot access uuid for unsigned message.") :=
  c7_identity_fails_loudly.2.2.2 ⟨[], [], false⟩ ⟨[], [], false⟩ rfl

/-- C8 counterexample: the claim says every signed value is
string-typed and that non-string values are serialized at assignment
time both in the constructor and in addSigned.  But addSigned
(src/index.js lines 147-155) assigns values verbatim: merging the
number 5 leaves the number 5, not a string, in the signed bucket. -/
theorem c8_counterexample :
    (Message.addSigned ⟨[], [], false⟩ [("a", JVal.num 5)])._signed_ = [("a", JVal.num 5)]
  ∧ getKey (Message.addSigned ⟨[], [], false⟩ [("a", JVal.num 5)])._signed_ "a"
      = some (JVal.num 5)
  ∧ isStr (JVal.num 5) = false := by
  exact ⟨by decide, by decide, by decide⟩

/-- C8 (amended): non-string values are replaced by their JSON
serialization at CONSTRUCTION time only, where JSON.stringify of an
undefined value leaves it undefined, so after every successful
construction each signed value is a string or undefined; addSigned
performs no conversion and stores merged values exactly as given. -/
theorem c8_signed_strings_invariant :
    (∀ (d : JSInput) (m : Message), newMessage d = Except.ok m →
        m._signed_.all (fun p => isStrOrUndef p.2) = true)
  ∧ (Message.addSigned ⟨[], [], false⟩ [("a", JVal.num 5)])._signed_
      = [("a", JVal.num 5)] := by
  exact ⟨newMessage_signed_all, by decide⟩

/-- C8 witness: the constructor part applied to the object input
mapping a to the number 5, whose construction stringifies the value. -/
theorem c8_signed_strings_invariant_witness :
    (Message.mk [("a", JVal.str "5")] [] false)._signed_.all
      (fun p => isStrOrUndef p.2) = true :=
  c8_signed_strings_invariant.1 (JSInput.obj [("a", JVal.num 5)])
    ⟨[("a", JVal.str "5")], [], false⟩ (by decide)

/-- C9: at the heap level, the payload getter allocates two fresh
cells holding the JSON round trip of the signed and params buckets of
the envelope (its deep structural copy, in which undefined-valued keys
are dropped by JSON.stringify), and any sequence of property writes
through the two returned references leaves the envelope-owned cells --
and hence its signed and params buckets -- unchanged. -/
theorem c9_payload_isolation (st : Store) (m : Message) (sigRef parRef : Nat)
    (hs : sigRef < st.cells.length) (hp : parRef < st.cells.length)
    (hms : st.read sigRef = m._signed_) (hmp : st.read parRef = m._params_) :
    (payloadAlloc st sigRef parRef).1.read (payloadAlloc st sigRef parRef).2.1 = m.payload.1
  ∧ (payloadAlloc st sigRef parRef).1.read (payloadAlloc st sigRef parRef).2.2 = m.payload.2
  ∧ ∀ ws : List (Nat × String × JVal),
      (∀ w ∈ ws, w.1 = (payloadAlloc st sigRef parRef).2.1
               ∨ w.1 = (payloadAlloc st sigRef parRef).2.2) →
      (applyWrites (payloadAlloc st sigRef parRef).1 ws).read sigRef = m._signed_
    ∧ (applyWrites (payloadAlloc st sigRef parRef).1 ws).read parRef = m._params_ := by
  obtain ⟨hc, hr1, hr2⟩ := payloadAlloc_cells st sigRef parRef hp
  rw [hc, hr1, hr2]
  refine ⟨?_, ?_, ?_⟩
  · rw [store_read_append_fst, hms]
    rfl
  · rw [store_read_append_snd, hmp]
    rfl
  · intro ws hws
    have hlts : ∀ w ∈ ws, sigRef < w.1 := by
      intro w hw
      rcases hws w hw with h | h <;> omega
    have hltp : ∀ w ∈ ws, parRef < w.1 := by
      intro w hw
      rcases hws w hw with h | h <;> omega
    constructor
    · rw [applyWrites_read_lt ws _ sigRef hlts, store_read_append st _ sigRef hs, hms]
    · rw [applyWrites_read_lt ws _ parRef hltp, store_read_append st _ parRef hp, hmp]

/-- C9 witness: a concrete two-cell heap holding the buckets of
msgStoreEx, three writes through the two returned references (including
mutating the cloned signed name and alias), after which both original
cells still hold the envelope buckets; the first returned cell is the
deep copy of the signed bucket. -/
theorem c9_payload_isolation_witness :
    (payloadAlloc storeEx 0 1).1.read (payloadAlloc storeEx 0 1).2.1 = msgStoreEx.payload.1
  ∧ (applyWrites (payloadAlloc storeEx 0 1).1 writesEx).read 0 = msgStoreEx._signed_
  ∧ (applyWrites (payloadAlloc storeEx 0 1).1 writesEx).read 1 = msgStoreEx._params_ := by
  have h := c9_payload_isolation storeEx msgStoreEx 0 1 (by decide) (by decide)
    (by decide) (by decide)
  exact ⟨h.1, (h.2.2 writesEx (by decide)).1, (h.2.2 writesEx (by decide)).2⟩

/-- C10: typeof null is object, so the constructor takes the object
branch and evaluates data._signed_ on null, which throws a raw
property-access TypeError; this is not the InvalidInputKind error of
line 29 (whose message is Must provide message as json or url-encoded
data). -/
theorem c10_null_constructor_type_error :
    newMessage JSInput.null
      = Except.error (JSErr.typeErr "Cannot read properties of null (reading _signed_)")
  ∧ JSErr.typeErr "Cannot read properties of null (reading _signed_)"
      ≠ JSErr.errorMsg "Must provide message as json or url-encoded data" := by
  exact ⟨rfl, by decide⟩
